import Mathlib

/-!
Verification development for the Plex→Discord media-updates script
(`plex_discord_media_updates.py`).  The message-composition core is
shallowly embedded: Python strings become `String` (lists of Unicode
scalar chars, compared by code point exactly as Python compares them),
the `collections.Counter` built over show titles becomes an explicit
first-occurrence key list with multiplicities, and the straight-line
`__main__` pipeline becomes a pure function returning `Option` (where
`none` means "message not sent").
-/

namespace PlexDiscordMediaUpdates

/-- A Plex media object, as used by `clean_year`: anything with a
`.title` and a `.year`. -/
structure Media where
  title : String
  year : Nat
  deriving DecidableEq, Repr

/-- An episode, reduced to the one attribute the script reads from it:
`episode.grandparentRatingKey`, the opaque key of its parent series. -/
structure Episode where
  grandparentRatingKey : Nat
  deriving DecidableEq, Repr

/-- A Discord embed as built by the script (`dhooks.Embed` plus the
`set_thumbnail` call). -/
structure Embed where
  title : String
  description : String
  color : Nat
  thumbnail : Option String := none
  deriving DecidableEq, Repr

/-- Line 109: `message_max_length = 4000`. -/
def message_max_length : Nat := 4000

/-- Line 178: `max_length_exceeded_msg = f"\n\n**{max_length_exceeded_msg}**"` —
the configured overflow footer text wrapped in two newlines and bold markers. -/
def overflow_msg (m : String) : String := "\n\n**" ++ m ++ "**"

/-- Does a six-character block have the shape `(` `[12]` `[0-9]` `[0-9]` `[0-9]` `)` —
the fixed-width tail demanded by the regex `.*\([12][0-9]{3}\)$` of line 128. -/
def yearParenTail : List Char → Bool
  | ['(', d1, d2, d3, d4, ')'] =>
    (d1 == '1' || d1 == '2') && d2.isDigit && d3.isDigit && d4.isDigit
  | _ => false

/-- One anchoring position of the regex `.*\([12][0-9]{3}\)$`: the string must be
a prefix (in which `.` forbids `'\n'`) followed by the six-character year tail. -/
def matchesCore (cs : List Char) : Bool :=
  yearParenTail (cs.drop (cs.length - 6)) &&
    (cs.take (cs.length - 6)).all (fun c => decide (c ≠ '\n'))

/-- Line 130: `year_regex.match(media.title)` with
`year_regex = re.compile(".*\([12][0-9]{3}\)$")`.  Python `re.match` anchors at
the start; `.` does not match `'\n'`; without `MULTILINE` the metacharacter `$`
matches either at the very end of the string or just before a final `'\n'`.
Hence a match exists iff the whole string — or the string minus a single
trailing newline — decomposes as a newline-free prefix plus `(YYYY)`. -/
def year_regex_match (s : String) : Bool :=
  matchesCore s.data ||
    (match s.data.getLast? with
     | some c => (c == '\n') && matchesCore s.data.dropLast
     | none => false)

/-- Lines 115–132, `clean_year`: return the title, appending `" (year)"`
unless the regex already finds a parenthesised year at the end. -/
def clean_year (media : Media) : String :=
  if year_regex_match media.title then media.title
  else media.title ++ " (" ++ toString media.year ++ ")"

/-- Python `long_string.rfind("\n", 0, stop)`: the largest index `i < stop`
(and `i < len`) with `s[i] = '\n'`, or `-1` when there is none. -/
def pyRfindNewline (s : String) (stop : Nat) : Int :=
  match (((s.data.take stop).enum).filter (fun p => p.2 == '\n')).getLast? with
  | some p => (p.1 : Int)
  | none => -1

/-- Python `s[:stop]` where `stop` may be negative: a negative stop counts
from the end of the string (clamped at zero). -/
def pySliceTo (s : String) (stop : Int) : String :=
  if stop < 0 then ⟨s.data.take (s.data.length - (-stop).toNat)⟩
  else ⟨s.data.take stop.toNat⟩

/-- Lines 135–149, `trim_on_newlines`.  `msg` stands for the global
`max_length_exceeded_msg` (already wrapped by `overflow_msg`). -/
def trim_on_newlines (msg : String) (long_string : String) (max_length : Nat) : String :=
  if max_length < long_string.length then
    pySliceTo long_string (pyRfindNewline long_string max_length) ++ msg
  else
    long_string ++ msg

/-- Lines 152–171, `create_embeds`: the description is passed through
`trim_on_newlines` only when it exceeds `max_length`; the resulting embed is
what gets appended to `webhook_embeds`. -/
def create_embeds (msg : String) (embed_title embed_description : String)
    (embed_color : Nat) (max_length : Nat) : Embed :=
  let d :=
    if max_length < embed_description.length then
      trim_on_newlines msg embed_description max_length
    else embed_description
  { title := embed_title, description := d, color := embed_color }

/-- Helper for `counterKeys`: keeps the first occurrence of every element not
already in `seen`, preserving order. -/
def counterKeysAux {α : Type} [DecidableEq α] (seen : List α) : List α → List α
  | [] => []
  | x :: xs =>
    if x ∈ seen then counterKeysAux seen xs
    else x :: counterKeysAux (x :: seen) xs

/-- The key sequence of `collections.Counter(l)`: distinct elements of `l`
in order of first occurrence. -/
def counterKeys {α : Type} [DecidableEq α] (l : List α) : List α :=
  counterKeysAux [] l

/-- Line 248: `counted_shows = Counter(newShows)` — each first-occurrence key
paired with its multiplicity in the input list. -/
def counter {α : Type} [DecidableEq α] (l : List α) : List (α × Nat) :=
  (counterKeys l).map (fun k => (k, l.count k))

/-- Lexicographic comparison of character lists by Unicode code point —
exactly how Python compares strings (and how `list.sort()` orders them). -/
def charsLe : List Char → List Char → Bool
  | [], _ => true
  | _ :: _, [] => false
  | a :: as, b :: bs => if a < b then true else if b < a then false else charsLe as bs

/-- Python string `<=`: code-point lexicographic order. -/
def strLe (a b : String) : Bool := charsLe a.data b.data

/-- One line of the shows list, lines 257–265: `bullet + title`, or with
`show_episode_count_per_show` enabled,
`f"{bullet}{counted_show} - *{episode_count} {episodes_counted}*"` where
`episodes_counted` is `episode` pluralized when the count exceeds one. -/
def episode_line (bullet : String) (show_individual_episodes : Bool)
    (p : String × Nat) : String :=
  if show_individual_episodes then
    bullet ++ p.1 ++ " - *" ++ toString p.2 ++ " " ++
      ("episode" ++ (if 1 < p.2 then "s" else "")) ++ "*"
  else
    bullet ++ p.1

/-- Lines 249–266: the per-show lines built from `counted_shows` in key order
and then sorted in place by `show_list.sort()` (a stable comparison sort over
code-point string order; modelled by insertion sort, which produces the same
sorted permutation). -/
def show_list (bullet : String) (show_individual_episodes : Bool)
    (newShows : List String) : List String :=
  List.insertionSort (fun a b => strLe a b = true)
    ((counter newShows).map (episode_line bullet show_individual_episodes))

/-- Line 268: `tv_str = "\n".join(show_list)`. -/
def tv_str (bullet : String) (show_individual_episodes : Bool)
    (newShows : List String) : String :=
  String.intercalate "\n" (show_list bullet show_individual_episodes newShows)

/-- Line 250/256: `total_episodes`, accumulated over the counter's values. -/
def total_episodes (newShows : List String) : Nat :=
  ((counter newShows).map Prod.snd).sum

/-- The value left in the loop variable `episode_count` after the loop of
lines 253–265: the count of the *last* key of `counted_shows` (0 only if the
loop never ran, which the caller rules out). -/
def last_episode_count (newShows : List String) : Nat :=
  ((counter newShows).map Prod.snd).getLastD 0

/-- Lines 272–280: `show_title_counted` — `"Show"` plus an `"s"` when
`total_shows > 1`, or else when the residual `episode_count` exceeds one. -/
def show_title_counted (total_shows episode_count : Nat) : String :=
  "Show" ++ (if 1 < total_shows then "s" else if 1 < episode_count then "s" else "")

/-- Lines 273–277: `episode_title_counted` — `"Episode"` gains its `"s"` only
in the `total_shows > 1` branch. -/
def episode_title_counted (total_shows : Nat) : String :=
  "Episode" ++ (if 1 < total_shows then "s" else "")

/-- Lines 282–289: the TV embed title, with or without the total episode
count depending on `show_total_episode_count`. -/
def tv_title (bullet : String) (show_individual_episodes show_total_episodes_opt : Bool)
    (tv_emote : String) (newShows : List String) : String :=
  let total_shows := (show_list bullet show_individual_episodes newShows).length
  if show_total_episodes_opt then
    toString total_shows ++ " " ++
      show_title_counted total_shows (last_episode_count newShows) ++ " / " ++
      toString (total_episodes newShows) ++ " " ++
      episode_title_counted total_shows ++ " " ++ tv_emote
  else
    toString total_shows ++ " " ++
      show_title_counted total_shows (last_episode_count newShows) ++ " " ++ tv_emote

/-- Lines 238–244: the list `newShows` — for each new episode, the parent
series fetched by its `grandparentRatingKey` and rendered by `clean_year`. -/
def displayTitles (resolve : Nat → Media) (new_eps : List Episode) : List String :=
  new_eps.map (fun e => clean_year (resolve e.grandparentRatingKey))

/-- Line 248 applied to the episode window: `Counter(newShows)`. -/
def counted_shows (resolve : Nat → Media) (new_eps : List Episode) :
    List (String × Nat) :=
  counter (displayTitles resolve new_eps)

/-- Lines 212–217: the movies body — every movie (duplicates included) on its
own bulleted line. -/
def movies_str (bullet : String) (new_movies : List Media) : String :=
  bullet ++ String.intercalate ("\n" ++ bullet) (new_movies.map clean_year)

/-- Lines 219–226: the movies embed title with standard pluralization. -/
def movie_title (movie_emote : String) (new_movies : List Media) : String :=
  toString new_movies.length ++ " " ++
    ("Movie" ++ (if new_movies.length ≠ 1 then "s" else "")) ++ " " ++ movie_emote

/-- Lines 292–300: the per-embed description budget.  The full budget when the
bodies together stay under it, otherwise the budget divided evenly. -/
def embed_length (media_lists : List String) : Nat :=
  if (media_lists.map String.length).sum < message_max_length then
    message_max_length
  else
    message_max_length / media_lists.length

/-- Line 309: `embed.set_thumbnail(embed_thumbnail)`. -/
def set_thumbnail (e : Embed) (t : String) : Embed :=
  { e with thumbnail := some t }

/-- The configuration surface read from `config.yml` (lines 88–106) that the
message-composition pipeline consumes. -/
structure Config where
  bullet : String
  overflow_footer : String
  message_title : String
  embed_thumbnail : String
  movies_colour : Nat
  shows_colour : Nat
  movies_emote : String
  shows_emote : String
  skip_movies : Bool
  skip_tv : Bool
  show_total_episodes : Bool
  show_individual_episodes : Bool

/-- The straight-line `__main__` pipeline, lines 196–318, as a pure function
from the fetched media to the outbound webhook payload.  `none` models the
"No new/specified media to notify about - message not sent." branch, in which
`webhook.send` is never called.  (The lookback-text formatting of the header,
lines 181–194, only rewrites the constant header and is kept abstract as
`cfg.message_title`.) -/
def runPipeline (cfg : Config) (resolve : Nat → Media)
    (new_movies : List Media) (new_eps : List Episode) :
    Option (String × List Embed) :=
  let bullet := cfg.bullet ++ " "
  let msg := overflow_msg cfg.overflow_footer
  let skipM := cfg.skip_movies || new_movies.isEmpty
  let skipT := cfg.skip_tv || new_eps.isEmpty
  let movieSec : Option (String × String) :=
    if skipM then none
    else some (movie_title cfg.movies_emote new_movies, movies_str bullet new_movies)
  let newShows := displayTitles resolve new_eps
  let tvSec : Option (String × String) :=
    if skipT then none
    else
      some (tv_title bullet cfg.show_individual_episodes cfg.show_total_episodes
              cfg.shows_emote newShows,
            tv_str bullet cfg.show_individual_episodes newShows)
  let media_lists := (movieSec.map Prod.snd).toList ++ (tvSec.map Prod.snd).toList
  let el := embed_length media_lists
  let webhook_embeds :=
    (movieSec.map (fun p => create_embeds msg p.1 p.2 cfg.movies_colour el)).toList ++
      (tvSec.map (fun p => create_embeds msg p.1 p.2 cfg.shows_colour el)).toList
  let webhook_embeds := webhook_embeds.map (fun e => set_thumbnail e cfg.embed_thumbnail)
  if webhook_embeds.isEmpty then none
  else some (cfg.message_title, webhook_embeds)

/-- Modelled from the spec words of the claims (not from the code), for
comparison: a title "ends with a 4-digit year in the range 1000–2999 enclosed
in parentheses". -/
def spec_endsWithYearParen (t : String) : Bool :=
  yearParenTail (t.data.drop (t.data.length - 6))

/-- Modelled from the spec words of the claims (not from the code), for
comparison: the shows output as it would be if the SeriesCount entries were
sorted by displayTitle first and rendered afterwards. -/
def spec_sorted_by_title (bullet : String) (show_individual_episodes : Bool)
    (newShows : List String) : List String :=
  (List.insertionSort (fun p q : String × Nat => strLe p.1 q.1 = true)
      (counter newShows)).map (episode_line bullet show_individual_episodes)

/-- A resolver with two distinct series whose second title extends the first. -/
def two_shows_resolve : Nat → Media :=
  fun k => if k = 1 then ⟨"Foo (2020)", 2020⟩ else ⟨"Foo (2020) !! (2020)", 1999⟩

/-- A resolver mapping every series key to the same title and year. -/
def same_title_resolve : Nat → Media := fun _ => ⟨"X (2020)", 2020⟩

/-- A resolver with a single series. -/
def one_show_resolve : Nat → Media := fun _ => ⟨"Foo", 2020⟩

/-- A 2000-character section body, used to exercise the truncation branch of
the budget allocator. -/
def big_body : String := ⟨List.replicate 2000 'a'⟩

/-- A concrete configuration for closed instantiations. -/
def test_config : Config :=
  { bullet := "•", overflow_footer := "Trimmed", message_title := "New",
    embed_thumbnail := "https://example.invalid/t.png", movies_colour := 1,
    shows_colour := 2, movies_emote := "m", shows_emote := "t",
    skip_movies := false, skip_tv := false, show_total_episodes := true,
    show_individual_episodes := true }

/-! ### Helper lemmas about the Counter embedding -/

theorem mem_counterKeysAux {α : Type} [DecidableEq α] (a : α) :
    ∀ (l seen : List α), a ∈ counterKeysAux seen l ↔ a ∈ l ∧ a ∉ seen := by
  intro l
  induction l with
  | nil => intro seen; simp [counterKeysAux]
  | cons x xs ih =>
    intro seen
    by_cases hx : x ∈ seen
    · simp only [counterKeysAux, if_pos hx, ih, List.mem_cons]
      constructor
      · rintro ⟨h1, h2⟩
        exact ⟨Or.inr h1, h2⟩
      · rintro ⟨h1 | h1, h2⟩
        · subst h1; exact absurd hx h2
        · exact ⟨h1, h2⟩
    · simp only [counterKeysAux, if_neg hx, List.mem_cons, ih]
      constructor
      · rintro (h1 | ⟨h1, h2⟩)
        · subst h1; exact ⟨Or.inl rfl, hx⟩
        · exact ⟨Or.inr h1, fun hc => h2 (Or.inr hc)⟩
      · rintro ⟨h1 | h1, h2⟩
        · exact Or.inl h1
        · by_cases hax : a = x
          · exact Or.inl hax
          · exact Or.inr ⟨h1, fun hc => hc.elim hax h2⟩

theorem nodup_counterKeysAux {α : Type} [DecidableEq α] :
    ∀ (l seen : List α), (counterKeysAux seen l).Nodup := by
  intro l
  induction l with
  | nil => intro seen; simp [counterKeysAux]
  | cons x xs ih =>
    intro seen
    by_cases hx : x ∈ seen
    · simpa [counterKeysAux, if_pos hx] using ih seen
    · simp only [counterKeysAux, if_neg hx, List.nodup_cons]
      refine ⟨fun hc => ?_, ih _⟩
      exact ((mem_counterKeysAux x xs (x :: seen)).mp hc).2 (List.mem_cons_self x seen)

theorem mem_counterKeys {α : Type} [DecidableEq α] (a : α) (l : List α) :
    a ∈ counterKeys l ↔ a ∈ l := by
  simp [counterKeys, mem_counterKeysAux]

theorem nodup_counterKeys {α : Type} [DecidableEq α] (l : List α) :
    (counterKeys l).Nodup :=
  nodup_counterKeysAux l []

theorem counterKeys_perm {α : Type} [DecidableEq α] {l1 l2 : List α} (h : l1.Perm l2) :
    (counterKeys l1).Perm (counterKeys l2) := by
  refine (List.perm_ext_iff_of_nodup (nodup_counterKeys l1) (nodup_counterKeys l2)).mpr ?_
  intro a
  rw [mem_counterKeys, mem_counterKeys, h.mem_iff]

theorem counter_perm {α : Type} [DecidableEq α] {l1 l2 : List α} (h : l1.Perm l2) :
    (counter l1).Perm (counter l2) := by
  unfold counter
  have h1 : (counterKeys l1).map (fun k => (k, l1.count k)) =
      (counterKeys l1).map (fun k => (k, l2.count k)) := by
    apply List.map_congr_left
    intro a _
    rw [h.count_eq]
  rw [h1]
  exact (counterKeys_perm h).map _

theorem sum_map_indicator {α : Type} [DecidableEq α] {x : α} :
    ∀ {K : List α}, K.Nodup → x ∈ K →
      (K.map (fun k => if x == k then 1 else 0)).sum = 1 := by
  intro K
  induction K with
  | nil => intro _ h; cases h
  | cons k K ih =>
    intro hnd hmem
    simp only [List.map_cons, List.sum_cons]
    rcases List.mem_cons.mp hmem with h | h
    · subst h
      have : ∀ j ∈ K, (fun k => if x == k then 1 else 0) j = 0 := by
        intro j hj
        have : x ≠ j := fun hc => (List.nodup_cons.mp hnd).1 (hc ▸ hj)
        simp [this]
      rw [List.map_congr_left this]
      simp
    · have hxk : x ≠ k := fun hc => (List.nodup_cons.mp hnd).1 (hc ▸ h)
      rw [if_neg (by simpa using hxk)]
      rw [ih (List.nodup_cons.mp hnd).2 h]

theorem sum_map_add {α : Type} (f g : α → Nat) :
    ∀ K : List α, (K.map (fun k => f k + g k)).sum = (K.map f).sum + (K.map g).sum := by
  intro K
  induction K with
  | nil => simp
  | cons k K ihK =>
    simp only [List.map_cons, List.sum_cons, ihK]
    omega

theorem sum_counts_over_keys {α : Type} [DecidableEq α] :
    ∀ (l K : List α), K.Nodup → (∀ a ∈ l, a ∈ K) →
      (K.map (fun k => l.count k)).sum = l.length := by
  intro l
  induction l with
  | nil => intro K _ _; simp
  | cons x xs ih =>
    intro K hnd hcov
    have h1 : K.map (fun k => (x :: xs).count k) =
        K.map (fun k => xs.count k + if x == k then 1 else 0) := by
      apply List.map_congr_left
      intro a _
      rw [List.count_cons]
    rw [h1, sum_map_add]
    rw [ih K hnd (fun a ha => hcov a (List.mem_cons_of_mem _ ha)),
      sum_map_indicator hnd (hcov x (List.mem_cons_self x xs))]
    simp [List.length_cons]

theorem counter_counts_sum {α : Type} [DecidableEq α] (l : List α) :
    ((counter l).map Prod.snd).sum = l.length := by
  unfold counter
  rw [List.map_map]
  exact sum_counts_over_keys l (counterKeys l) (nodup_counterKeys l)
    (fun a ha => (mem_counterKeys a l).mpr ha)

theorem counter_ne_nil {ns : List String} (h : ns ≠ []) : counter ns ≠ [] := by
  cases ns with
  | nil => exact absurd rfl h
  | cons x xs => simp [counter, counterKeys, counterKeysAux]

/-! ### Helper lemmas about the string order used by the sort -/

theorem charsLe_total : ∀ as bs : List Char, charsLe as bs = true ∨ charsLe bs as = true := by
  intro as
  induction as with
  | nil => intro bs; left; rfl
  | cons a as ih =>
    intro bs
    cases bs with
    | nil => right; rfl
    | cons b bs =>
      by_cases hab : a < b
      · left; simp [charsLe, hab]
      · by_cases hba : b < a
        · right; simp [charsLe, hba, asymm hba]
        · rcases ih bs with h | h
          · left; simp [charsLe, hab, hba, h]
          · right; simp [charsLe, hab, hba, h]

theorem charsLe_trans : ∀ as bs cs : List Char,
    charsLe as bs = true → charsLe bs cs = true → charsLe as cs = true := by
  intro as
  induction as with
  | nil => intro bs cs _ _; rfl
  | cons a as ih =>
    intro bs cs h1 h2
    cases bs with
    | nil => simp [charsLe] at h1
    | cons b bs =>
      cases cs with
      | nil => simp [charsLe] at h2
      | cons c cs =>
        simp only [charsLe] at h1 h2 ⊢
        by_cases hab : a < b
        · by_cases hbc : b < c
          · simp [lt_trans hab hbc]
          · by_cases hcb : c < b
            · simp [hbc, hcb] at h2
            · have hbc2 : b = c := le_antisymm (not_lt.mp hcb) (not_lt.mp hbc)
              simp [hbc2 ▸ hab]
        · by_cases hba : b < a
          · simp [hab, hba] at h1
          · have hab2 : a = b := le_antisymm (not_lt.mp hba) (not_lt.mp hab)
            subst hab2
            by_cases hac : a < c
            · simp [hac]
            · by_cases hca : c < a
              · simp [hac, hca] at h2
              · rw [if_neg (lt_irrefl a), if_neg (lt_irrefl a)] at h1
                rw [if_neg hac, if_neg hca] at h2 ⊢
                exact ih bs cs h1 h2

theorem charsLe_antisymm : ∀ as bs : List Char,
    charsLe as bs = true → charsLe bs as = true → as = bs := by
  intro as
  induction as with
  | nil =>
    intro bs _ h2
    cases bs with
    | nil => rfl
    | cons b bs => simp [charsLe] at h2
  | cons a as ih =>
    intro bs h1 h2
    cases bs with
    | nil => simp [charsLe] at h1
    | cons b bs =>
      simp only [charsLe] at h1 h2
      by_cases hab : a < b
      · simp [hab, asymm hab] at h2
      · by_cases hba : b < a
        · simp [hab, hba] at h1
        · have : a = b := le_antisymm (not_lt.mp hba) (not_lt.mp hab)
          subst this
          rw [if_neg (lt_irrefl a), if_neg (lt_irrefl a)] at h1 h2
          rw [ih bs h1 h2]

theorem strLe_total (a b : String) : strLe a b = true ∨ strLe b a = true :=
  charsLe_total a.data b.data

theorem strLe_trans {a b c : String} (h1 : strLe a b = true) (h2 : strLe b c = true) :
    strLe a c = true :=
  charsLe_trans a.data b.data c.data h1 h2

theorem strLe_antisymm {a b : String} (h1 : strLe a b = true) (h2 : strLe b a = true) :
    a = b := by
  cases a; cases b
  exact congrArg String.mk (charsLe_antisymm _ _ h1 h2)

instance : IsTotal String (fun a b => strLe a b = true) := ⟨strLe_total⟩

instance : IsTrans String (fun a b => strLe a b = true) := ⟨fun _ _ _ => strLe_trans⟩

instance : IsAntisymm String (fun a b => strLe a b = true) := ⟨fun _ _ => strLe_antisymm⟩

theorem show_list_sorted (bullet : String) (flag : Bool) (ns : List String) :
    (show_list bullet flag ns).Sorted (fun a b => strLe a b = true) :=
  List.sorted_insertionSort _ _

theorem show_list_perm_invariant (bullet : String) (flag : Bool) {ns1 ns2 : List String}
    (h : ns1.Perm ns2) :
    show_list bullet flag ns1 = show_list bullet flag ns2 := by
  unfold show_list
  have hp : ((counter ns1).map (episode_line bullet flag)).Perm
      ((counter ns2).map (episode_line bullet flag)) := (counter_perm h).map _
  refine List.eq_of_perm_of_sorted ?_ (List.sorted_insertionSort _ _)
    (List.sorted_insertionSort _ _)
  exact ((List.perm_insertionSort _ _).trans hp).trans (List.perm_insertionSort _ _).symm

/-! ### Helper lemma about the year regex on newline-free titles -/

theorem year_regex_match_of_no_newline {t : String} (h : ∀ c ∈ t.data, c ≠ '\n') :
    year_regex_match t = spec_endsWithYearParen t := by
  unfold year_regex_match matchesCore spec_endsWithYearParen
  have hall : (t.data.take (t.data.length - 6)).all (fun c => decide (c ≠ '\n')) = true := by
    rw [List.all_eq_true]
    intro c hc
    exact decide_eq_true (h c (List.mem_of_mem_take hc))
  rw [hall, Bool.and_true]
  cases hl : t.data.getLast? with
  | none => simp
  | some c =>
    have hc : c ≠ '\n' := h c (List.mem_of_getLast?_eq_some hl)
    have hb : (c == '\n') = false := by simpa using hc
    simp [hb]

/-! ### Claim C1 -/

/-- Claim C1, counterexample: a section body of length 1 delivered under an
allowed length of 10 does not end with the overflow notice — `create_embeds`
invokes the trimming routine (which would have appended the notice) only when
the body exceeds the allowed length, so the claim that the notice is appended
even when `length(bodyText) <= allowedLength` is false. -/
theorem c1_counterexample :
    ¬ ∃ p, (create_embeds (overflow_msg "Trimmed") "t" "a" 5 10).description =
        p ++ overflow_msg "Trimmed" := by
  rintro ⟨p, hp⟩
  have hd : (create_embeds (overflow_msg "Trimmed") "t" "a" 5 10).description = "a" := by
    decide
  rw [hd] at hp
  have hlen := congrArg String.length hp
  rw [String.length_append] at hlen
  have h1 : ("a" : String).length = 1 := rfl
  have h2 : (overflow_msg "Trimmed").length = 13 := rfl
  omega

/-- Claim C1, amended: the section body handed to the delivery collaborator
ends with the overflow notice exactly in the oversized case — when the body
exceeds the allowed length it is trimmed and the notice is appended, and when
it fits it is delivered unchanged, with no notice. -/
theorem c1_notice_only_when_trimmed (footer embed_title d : String) (c ml : Nat) :
    (ml < d.length →
      ∃ p, (create_embeds (overflow_msg footer) embed_title d c ml).description =
        p ++ overflow_msg footer) ∧
      (d.length ≤ ml →
        (create_embeds (overflow_msg footer) embed_title d c ml).description = d) := by
  constructor
  · intro hlt
    refine ⟨pySliceTo d (pyRfindNewline d ml), ?_⟩
    simp only [create_embeds, trim_on_newlines, if_pos hlt]
  · intro hle
    simp only [create_embeds, if_neg (not_lt.mpr hle)]

/-- Witness for C1's amended theorem at concrete inputs: an oversized body
gets the notice, a fitting body is passed through unchanged. -/
theorem c1_notice_only_when_trimmed_witness :
    (∃ p, (create_embeds (overflow_msg "F") "t" "ab\ncd\nef" 0 5).description =
        p ++ overflow_msg "F") ∧
      (create_embeds (overflow_msg "F") "t" "ab" 0 5).description = "ab" :=
  ⟨(c1_notice_only_when_trimmed "F" "t" "ab\ncd\nef" 0 5).1 (by decide),
    (c1_notice_only_when_trimmed "F" "t" "ab" 0 5).2 (by decide)⟩

/-! ### Claim C2 -/

/-- Claim C2, code bug: on a body whose first `allowedLength` characters
contain no newline, `rfind` returns `-1` and the Python slice `[:-1]` keeps
everything but the last character, so the pre-notice portion of the result has
length 7, exceeding the allowed length 3. -/
theorem c2_rfind_miss_overflows :
    trim_on_newlines (overflow_msg "Trimmed") "aaaaa\nbb" 3 =
        "aaaaa\nb" ++ overflow_msg "Trimmed" ∧
      3 < ("aaaaa\nb" : String).length := by
  constructor
  · decide
  · decide

/-! ### Claim C3 -/

/-- Claim C3: when the summed raw body lengths stay strictly under the
4000-character budget every section is allotted the whole budget, otherwise
each section gets `floor(budget / sectionCount)`, which for one or two
sections divides the budget exactly. -/
theorem c3_budget_allocation (ls : List String) :
    ((ls.map String.length).sum < message_max_length →
        embed_length ls = message_max_length) ∧
      (message_max_length ≤ (ls.map String.length).sum →
        embed_length ls = message_max_length / ls.length) ∧
      (message_max_length ≤ (ls.map String.length).sum → (ls.length = 1 ∨ ls.length = 2) →
        ls.length * embed_length ls = message_max_length) := by
  refine ⟨fun h => ?_, fun h => ?_, fun h hn => ?_⟩
  · rw [embed_length, if_pos h]
  · rw [embed_length, if_neg (not_lt.mpr h)]
  · rw [embed_length, if_neg (not_lt.mpr h)]
    rcases hn with h1 | h2
    · rw [h1]; rfl
    · rw [h2]; rfl

/-- Witness for C3 at concrete inputs: a short single section gets the whole
budget; two 2000-character sections trigger division and the allocations sum
to the budget. -/
theorem c3_budget_allocation_witness :
    ((["ab"].map String.length).sum < message_max_length ∧
        embed_length ["ab"] = message_max_length) ∧
      (message_max_length ≤ ([big_body, big_body].map String.length).sum ∧
        [big_body, big_body].length * embed_length [big_body, big_body] =
          message_max_length) := by
  have hlt : (["ab"].map String.length).sum < message_max_length := by decide
  have hb : big_body.length = 2000 := by
    show (List.replicate 2000 'a').length = 2000
    rw [List.length_replicate]
  have hge : message_max_length ≤ ([big_body, big_body].map String.length).sum := by
    simp only [List.map_cons, List.map_nil, List.sum_cons, List.sum_nil, hb]
    decide
  exact ⟨⟨hlt, (c3_budget_allocation ["ab"]).1 hlt⟩,
    ⟨hge, (c3_budget_allocation [big_body, big_body]).2.2 hge (Or.inr rfl)⟩⟩

/-! ### Claim C4 -/

/-- Claim C4, counterexample: with per-show episode counts enabled, the code
sorts the fully rendered lines, not the display titles.  For the two series
"Foo (2020)" and "Foo (2020) !! (2020)" the rendered-line order and the
displayTitle order disagree (after the common prefix, the line for the shorter
title continues with a hyphen, which is larger than the exclamation mark), so
the output is not the displayTitle-sorted rendering. -/
theorem c4_counterexample :
    show_list "• " true (displayTitles two_shows_resolve [⟨1⟩, ⟨2⟩]) ≠
      spec_sorted_by_title "• " true (displayTitles two_shows_resolve [⟨1⟩, ⟨2⟩]) := by
  decide

/-- Claim C4, amended: the per-series lines are sorted ascending in
code-point lexicographic order of the full rendered line, and the output is
identical for all permutations of the input episode order. -/
theorem c4_sorted_lines_perm_invariant (bullet : String) (flag : Bool)
    (ns ns1 ns2 : List String) (h : ns1.Perm ns2) :
    (show_list bullet flag ns).Sorted (fun a b => strLe a b = true) ∧
      show_list bullet flag ns1 = show_list bullet flag ns2 :=
  ⟨show_list_sorted bullet flag ns, show_list_perm_invariant bullet flag h⟩

/-- Witness for C4's amended theorem at concrete inputs. -/
theorem c4_sorted_lines_perm_invariant_witness :
    (["b", "a"] : List String).Perm ["a", "b"] ∧
      ((show_list "• " true ["x"]).Sorted (fun a b => strLe a b = true) ∧
        show_list "• " true ["b", "a"] = show_list "• " true ["a", "b"]) :=
  ⟨by decide, c4_sorted_lines_perm_invariant "• " true ["x"] ["b", "a"] ["a", "b"] (by decide)⟩

/-! ### Claim C5 -/

/-- Claim C5, counterexample: the title "A\nB (2014)" ends with a
parenthesised year in range, yet `clean_year` appends another year, because
the `.*` of the anchored regex cannot cross the embedded newline and the match
fails. -/
theorem c5_counterexample :
    spec_endsWithYearParen "A\nB (2014)" = true ∧
      clean_year ⟨"A\nB (2014)", 2020⟩ ≠ "A\nB (2014)" := by
  constructor
  · decide
  · decide

/-- Claim C5, amended: for titles containing no newline character, the title
is returned unchanged exactly when it already ends with a 4-digit year in
1000–2999 enclosed in parentheses, and otherwise the year is appended. -/
theorem c5_newline_free_normalization (m : Media) (h : ∀ c ∈ m.title.data, c ≠ '\n') :
    (spec_endsWithYearParen m.title = true → clean_year m = m.title) ∧
      (spec_endsWithYearParen m.title = false →
        clean_year m = m.title ++ " (" ++ toString m.year ++ ")") := by
  constructor
  · intro hs
    rw [clean_year, year_regex_match_of_no_newline h, hs]
    rfl
  · intro hs
    rw [clean_year, year_regex_match_of_no_newline h, hs]
    rfl

/-- Witness for C5's amended theorem on the two kinds of concrete titles. -/
theorem c5_newline_free_normalization_witness :
    ((∀ c ∈ ("The Flash (2014)" : String).data, c ≠ '\n') ∧
        clean_year ⟨"The Flash (2014)", 2014⟩ = "The Flash (2014)") ∧
      ((∀ c ∈ ("Arrival" : String).data, c ≠ '\n') ∧
        clean_year ⟨"Arrival", 2016⟩ = "Arrival" ++ " (" ++ toString 2016 ++ ")") :=
  ⟨⟨by decide, (c5_newline_free_normalization ⟨"The Flash (2014)", 2014⟩ (by decide)).1
      (by decide)⟩,
    ⟨by decide, (c5_newline_free_normalization ⟨"Arrival", 2016⟩ (by decide)).2 (by decide)⟩⟩

/-! ### Claim C6 -/

/-- Claim C6: in the shows title the word "Show" is pluralized exactly when
there is more than one show, or when there is exactly one show whose episode
count exceeds one; a single show with a single episode stays singular. -/
theorem c6_show_pluralization (bullet : String) (flag : Bool) (ns : List String)
    (h : ns ≠ []) :
    show_title_counted (show_list bullet flag ns).length (last_episode_count ns) = "Shows" ↔
      (1 < (show_list bullet flag ns).length ∨
        ((show_list bullet flag ns).length = 1 ∧ ∃ k c, counter ns = [(k, c)] ∧ 1 < c)) := by
  have hlen : (show_list bullet flag ns).length = (counter ns).length := by
    rw [show_list, List.length_insertionSort, List.length_map]
  rw [hlen]
  rcases hc : counter ns with _ | ⟨p, rest⟩
  · exact absurd hc (counter_ne_nil h)
  · rcases rest with _ | ⟨q, rest2⟩
    · have hle : last_episode_count ns = p.2 := by
        simp [last_episode_count, hc]
      rw [hle]
      by_cases hp2 : 1 < p.2
      · simp only [show_title_counted, List.length_cons, List.length_nil,
          if_neg (by omega : ¬ (1 : Nat) < 0 + 1), if_pos hp2]
        constructor
        · intro _
          exact Or.inr ⟨by simp, p.1, p.2, rfl, hp2⟩
        · intro _; rfl
      · simp only [show_title_counted, List.length_cons, List.length_nil,
          if_neg (by omega : ¬ (1 : Nat) < 0 + 1), if_neg hp2]
        constructor
        · intro hcon; exact absurd hcon (by decide)
        · rintro (hcon | ⟨_, k, c, hkc, hc2⟩)
          · omega
          · rw [List.cons.injEq, Prod.mk.injEq] at hkc
            exact absurd (hkc.1.2 ▸ hc2) hp2
    · simp only [show_title_counted, List.length_cons]
      rw [if_pos (by omega : (1 : Nat) < rest2.length + 1 + 1)]
      constructor
      · intro _
        exact Or.inl (by omega)
      · intro _; rfl

/-- Witness for C6 at a concrete input: one show with two episodes reads as
"Shows". -/
theorem c6_show_pluralization_witness :
    (["a", "a"] : List String) ≠ [] ∧
      (show_title_counted (show_list "• " false ["a", "a"]).length
          (last_episode_count ["a", "a"]) = "Shows" ↔
        (1 < (show_list "• " false ["a", "a"]).length ∨
          ((show_list "• " false ["a", "a"]).length = 1 ∧
            ∃ k c, counter ["a", "a"] = [(k, c)] ∧ 1 < c))) :=
  ⟨by decide, c6_show_pluralization "• " false ["a", "a"] (by decide)⟩

/-! ### Claim C7 -/

/-- Claim C7, code bug: one show with three new episodes and the total
episode count enabled renders the grammatically wrong "1 Shows / 3 Episode 📺"
— the code pluralizes "Episode" only in the `total_shows > 1` branch, never
when a single show carries several episodes. -/
theorem c7_single_show_episode_singular :
    tv_title "• " true true "📺" (displayTitles one_show_resolve [⟨7⟩, ⟨7⟩, ⟨7⟩]) =
      "1 Shows / 3 Episode 📺" := by
  decide

/-! ### Claim C8 -/

/-- Claim C8: when both sections are absent (each library skipped or empty),
the pipeline produces no embeds and returns `none` — `webhook.send` is never
invoked. -/
theorem c8_no_sections_no_send (cfg : Config) (resolve : Nat → Media)
    (new_movies : List Media) (new_eps : List Episode)
    (h1 : cfg.skip_movies = true ∨ new_movies = [])
    (h2 : cfg.skip_tv = true ∨ new_eps = []) :
    runPipeline cfg resolve new_movies new_eps = none := by
  have hm : (cfg.skip_movies || new_movies.isEmpty) = true := by
    rcases h1 with h | h
    · simp [h]
    · simp [h]
  have ht : (cfg.skip_tv || new_eps.isEmpty) = true := by
    rcases h2 with h | h
    · simp [h]
    · simp [h]
  simp [runPipeline, hm, ht]

/-- Witness for C8 at a concrete run with no new media. -/
theorem c8_no_sections_no_send_witness :
    ((test_config.skip_movies = true ∨ ([] : List Media) = []) ∧
        (test_config.skip_tv = true ∨ ([] : List Episode) = [])) ∧
      runPipeline test_config same_title_resolve [] [] = none :=
  ⟨⟨Or.inr rfl, Or.inr rfl⟩,
    c8_no_sections_no_send test_config same_title_resolve [] [] (Or.inr rfl) (Or.inr rfl)⟩

/-! ### Claim C9 -/

/-- Claim C9, counterexample: two episodes whose parent series have the
distinct keys 1 and 2 but the same resolved display title are merged into a
single aggregated entry of count 2, so entries are not one-per-distinct-series. -/
theorem c9_counterexample :
    (1 : Nat) ≠ 2 ∧
      counted_shows same_title_resolve [⟨1⟩, ⟨2⟩] = [("X (2020)", 2)] ∧
      (counted_shows same_title_resolve [⟨1⟩, ⟨2⟩]).length ≠ 2 := by
  refine ⟨by decide, by decide, by decide⟩

/-- Claim C9, amended: the aggregation produces exactly one entry per
distinct *display title* of the episodes' parent series — the keys are
duplicate-free and cover exactly the display titles present in the window;
distinct series whose display titles coincide are merged. -/
theorem c9_one_entry_per_display_title (resolve : Nat → Media) (eps : List Episode) :
    ((counted_shows resolve eps).map Prod.fst).Nodup ∧
      (∀ t, t ∈ (counted_shows resolve eps).map Prod.fst ↔
        t ∈ displayTitles resolve eps) := by
  have hkeys : (counted_shows resolve eps).map Prod.fst =
      counterKeys (displayTitles resolve eps) := by
    rw [counted_shows, counter, List.map_map]
    exact List.map_congr_left (fun a _ => rfl) |>.trans (List.map_id _)
  rw [hkeys]
  exact ⟨nodup_counterKeys _, fun t => mem_counterKeys t _⟩

/-! ### Claim C10 -/

/-- Claim C10: for a non-empty episode window, the per-show counts produced by
the aggregation sum to the number of episode items — nothing is dropped or
double-counted. -/
theorem c10_episode_counts_sum (resolve : Nat → Media) (eps : List Episode)
    (h : eps ≠ []) :
    ((counted_shows resolve eps).map Prod.snd).sum = eps.length := by
  rw [counted_shows, counter_counts_sum, displayTitles, List.length_map]

/-- Witness for C10 at a concrete window of three episodes over two series. -/
theorem c10_episode_counts_sum_witness :
    ([⟨1⟩, ⟨1⟩, ⟨2⟩] : List Episode) ≠ [] ∧
      ((counted_shows two_shows_resolve [⟨1⟩, ⟨1⟩, ⟨2⟩]).map Prod.snd).sum =
        ([⟨1⟩, ⟨1⟩, ⟨2⟩] : List Episode).length :=
  ⟨by decide, c10_episode_counts_sum two_shows_resolve [⟨1⟩, ⟨1⟩, ⟨2⟩] (by decide)⟩

end PlexDiscordMediaUpdates
